import Mathlib

/-!
Shallow embedding of `src/bot/bot.py` (bobabot): a Discord bot whose only
decision logic is the tag-subscription filtering and menu-selection workflow.
Pure fragments of the handlers are translated as Lean functions; the effectful
parts (message sends, widget presentation, external calls) are reified as
explicit result values or call traces.
-/

namespace BobaBot

/-- A forum tag, as used by the bot: an entity carrying a `name` string
(mirrors the Discord `ForumTag` as consumed in `bot.py`, where only `.name`
is read). -/
structure Tag where
  name : String
deriving DecidableEq

/-- The parent channel of a forum thread, of which `bot.py` reads only the
`name` attribute (`ctx.parent.name`). -/
structure Parent where
  name : String
deriving DecidableEq

/-- The thread context object passed to `get_thread_tags` and
`on_thread_create`: the fields of `ctx` the code reads. -/
structure ThreadCtx where
  parent : Parent
  applied_tags : List Tag
deriving DecidableEq

/-- Embedding of `get_thread_tags(ctx, channel_name)` (bot.py lines 22-35):
if `ctx.parent.name == channel_name` it returns `ctx.applied_tags`;
otherwise the Python function falls off the end and returns `None`,
modelled as `Option`. -/
def get_thread_tags (ctx : ThreadCtx) (channel_name : String) : Option (List Tag) :=
  if ctx.parent.name = channel_name then
    some ctx.applied_tags
  else
    none

/-- A guild channel as read by `get_forum_tags`: a `name` and the
`available_tags` attribute. -/
structure GuildChannel where
  name : String
  available_tags : List Tag
deriving DecidableEq

/-- A guild (Discord server) as read by `get_forum_tags`: a `name` and its
list of channels. -/
structure Guild where
  name : String
  channels : List GuildChannel
deriving DecidableEq

/-- Embedding of `get_forum_tags(client, guild_name, channel_name)`
(bot.py lines 38-55). `discord.utils.get(iterable, name=x)` returns the
first element whose `name` equals `x`, or `None`; attribute access on
`None` raises, modelled by propagating `none`. -/
def get_forum_tags (client_guilds : List Guild) (guild_name channel_name : String) :
    Option (List Tag) :=
  match client_guilds.find? (fun g => g.name == guild_name) with
  | none => none
  | some g =>
    match g.channels.find? (fun c => c.name == channel_name) with
    | none => none
    | some c => some c.available_tags

/-- Embedding of `create_message_string(iter_tags)` (bot.py lines 58-68):
`", ".join([tag.name for tag in iter_tags])`. -/
def create_message_string (iter_tags : List Tag) : String :=
  String.intercalate ", " (iter_tags.map Tag.name)

/-- The subscribe-candidate filter, bot.py line 124:
`[tag for tag in forum_tags if not tag.name in subscribed_tags]`. -/
def subscribe_offer (all_tags : List Tag) (subscribed_names : List String) : List Tag :=
  all_tags.filter (fun tag => !(subscribed_names.contains tag.name))

/-- The unsubscribe-candidate filter, bot.py line 150:
`[tag for tag in forum_tags if tag.name in subscribed_tags]`. -/
def unsubscribe_offer (all_tags : List Tag) (subscribed_names : List String) : List Tag :=
  all_tags.filter (fun tag => subscribed_names.contains tag.name)

/-- The observable outcome of the subscribe/unsubscribe slash-command
handlers: either a plain text message, or an ephemeral interactive menu
(`MenuView(flag)` populated via `add_menu(tags)`). -/
inductive Response where
  | message (text : String)
  | menu (subscribing : Bool) (tags : List Tag)
deriving DecidableEq

/-- Embedding of the `subscribe` handler body (bot.py lines 107-130), from
the point where `forum_tags` and the `subscribed_tags` of the user have been
fetched: filter, then either report that all tags are subscribed or present
a menu built from the filtered list. -/
def subscribe (forum_tags : List Tag) (subscribed_tags : List String) : Response :=
  let forum_tags := forum_tags.filter (fun tag => !(subscribed_tags.contains tag.name))
  if forum_tags = [] then
    Response.message "You are currently subscribed to all tags!"
  else
    Response.menu true forum_tags

/-- Embedding of the `unsubscribe` handler body (bot.py lines 133-156),
symmetric to `subscribe`, with `MenuView(False)`. -/
def unsubscribe (forum_tags : List Tag) (subscribed_tags : List String) : Response :=
  let forum_tags := forum_tags.filter (fun tag => subscribed_tags.contains tag.name)
  if forum_tags = [] then
    Response.message "Not currently subscribed to any tags!"
  else
    Response.menu false forum_tags

/-- The external calls the `sync` handler may perform: the bulk tag sync to
the subscription store (`sync_all_tags`) and the command-registration
refresh (`bot.tree.sync()`). -/
inductive ExternalCall where
  | sync_all_tags (tags : List Tag)
  | tree_sync
deriving DecidableEq

/-- Embedding of the `sync` handler (bot.py lines 174-188) as the ordered
trace of external calls it performs: it fetches the forum tags, passes them
to `sync_all_tags`, then requests `bot.tree.sync()`. `none` models the
failure of the directory lookup. -/
def sync (client_guilds : List Guild) (guild_name channel_name : String) :
    Option (List ExternalCall) :=
  match get_forum_tags client_guilds guild_name channel_name with
  | none => none
  | some forum_tags => some [ExternalCall.sync_all_tags forum_tags, ExternalCall.tree_sync]

/-- The names defined at module scope in `bot.py` (imports at lines 1-8,
assignments at lines 10-19, and the `def` statements), transcribed from the
source. Python resolves a free name in a function body against this set
(plus builtins, none of which is `create_mention_string`); an absent name
raises `NameError` at the point of use. -/
def moduleGlobalNames : List String :=
  ["os", "Intents", "app_commands", "Interaction", "Message", "Embed",
   "Select", "View", "commands", "get", "load_dotenv", "MenuView",
   "sync_all_tags", "fetch_subscriptions_by_user_id",
   "server_name", "channel_name", "token", "intents", "bot",
   "get_thread_tags", "get_forum_tags", "create_message_string",
   "on_ready", "list_tags", "mention_me", "subscribe", "unsubscribe",
   "on_thread_create", "sync"]

/-- The observable outcome of the `on_thread_create` handler: either the
mention message was sent, or evaluation aborted with a `NameError` for the
given missing name before any message was sent. -/
inductive ThreadCreateOutcome where
  | messageSent
  | nameError (missing : String)
deriving DecidableEq

/-- Embedding of `on_thread_create(ctx)` (bot.py lines 159-171): it first
computes `get_thread_tags(ctx, channel_name)` (a defined name), then
evaluates `create_mention_string(channel_tags)`; that name is resolved
against the module globals, and if absent the handler raises `NameError`
before reaching the `ctx.send` on line 171. The success branch is
reachable only if the name resolves. -/
def on_thread_create (ctx : ThreadCtx) (channel_name : String) : ThreadCreateOutcome :=
  let channel_tags := get_thread_tags ctx channel_name
  if moduleGlobalNames.contains "create_mention_string" then
    ThreadCreateOutcome.messageSent
  else
    ThreadCreateOutcome.nameError "create_mention_string"

/-- Specification-side description of the tag-listing format: the tag
names joined in order by the fixed separator comma-space, empty string on
the empty sequence. Stated by direct recursion, to be compared with the
source-side `create_message_string`. -/
def joinNamesSpec : List Tag → String
  | [] => ""
  | [t] => t.name
  | t :: ts => t.name ++ ", " ++ joinNamesSpec ts

/-- Helper for relating `String.intercalate` to the recursive spec: the
tail of a comma-space join. -/
def joinTail : List String → String
  | [] => ""
  | a :: as => ", " ++ a ++ joinTail as

theorem intercalate_go_eq_joinTail (s : List String) :
    ∀ acc : String, String.intercalate.go acc ", " s = acc ++ joinTail s := by
  induction s with
  | nil => intro acc; simp [String.intercalate.go, joinTail]
  | cons a as ih =>
    intro acc
    simp only [String.intercalate.go, joinTail, ih, String.append_assoc]

theorem joinNamesSpec_cons (t : Tag) (ts : List Tag) :
    joinNamesSpec (t :: ts) = t.name ++ joinTail (ts.map Tag.name) := by
  induction ts generalizing t with
  | nil => simp [joinNamesSpec, joinTail]
  | cons r rs ih =>
    simp only [joinNamesSpec, List.map_cons, joinTail, ih r, String.append_assoc]

/-- Claim C1: for every ordered sequence of tags and every set of subscribed
names, the subscribe-candidate computation returns exactly the ordered
subsequence of the input whose tag name is not among the subscribed names:
the result is a sublist of the input (hence preserves relative order), and
a tag belongs to it precisely when it belongs to the input and its name is
not a member of the subscribed names. -/
theorem subscribe_offer_characterization (all_tags : List Tag) (subscribed_names : List String) :
    List.Sublist (subscribe_offer all_tags subscribed_names) all_tags ∧
    ∀ t : Tag, t ∈ subscribe_offer all_tags subscribed_names ↔
      t ∈ all_tags ∧ t.name ∉ subscribed_names := by
  constructor
  · exact List.filter_sublist all_tags
  · intro t
    simp [subscribe_offer, List.mem_filter]

/-- Claim C2: for every ordered sequence of tags and every set of subscribed
names, the unsubscribe-candidate computation returns exactly the ordered
subsequence of the input whose tag name is a member of the subscribed names:
the result is a sublist of the input (hence preserves relative order), and a
tag belongs to it precisely when it belongs to the input and its name is a
member of the subscribed names. -/
theorem unsubscribe_offer_characterization (all_tags : List Tag) (subscribed_names : List String) :
    List.Sublist (unsubscribe_offer all_tags subscribed_names) all_tags ∧
    ∀ t : Tag, t ∈ unsubscribe_offer all_tags subscribed_names ↔
      t ∈ all_tags ∧ t.name ∈ subscribed_names := by
  constructor
  · exact List.filter_sublist all_tags
  · intro t
    simp [unsubscribe_offer, List.mem_filter]

/-- Claim C3: for every tag sequence and every subscription set, the
subscribe offer and the unsubscribe offer partition the input: a tag is in
the input iff it is in one of the two offers, no tag is in both, and the
lengths of the two offers add up to the length of the input (so every
occurrence is accounted for exactly once). -/
theorem offers_partition (T : List Tag) (S : List String) :
    (∀ t : Tag, t ∈ T ↔ t ∈ subscribe_offer T S ∨ t ∈ unsubscribe_offer T S) ∧
    (∀ t : Tag, ¬(t ∈ subscribe_offer T S ∧ t ∈ unsubscribe_offer T S)) ∧
    (subscribe_offer T S).length + (unsubscribe_offer T S).length = T.length := by
  refine ⟨?_, ?_, ?_⟩
  · intro t
    by_cases h : t.name ∈ S <;>
      simp [subscribe_offer, unsubscribe_offer, List.mem_filter, h]
  · intro t
    by_cases h : t.name ∈ S <;>
      simp [subscribe_offer, unsubscribe_offer, List.mem_filter, h]
  · have key : ∀ (p : Tag → Bool) (l : List Tag),
        (l.filter (fun a => !p a)).length + (l.filter p).length = l.length := by
      intro p l
      induction l with
      | nil => rfl
      | cons a l ih =>
        cases h : p a <;> simp [List.filter_cons, h] <;> omega
    exact key (fun tag => S.contains tag.name) T

/-- Claim C4: each handler sends a plain message exactly when its offer is
empty (so it never presents an empty selection widget, and emptiness is not
an error), and otherwise presents a selection menu populated from its offer:
`subscribe` reports being subscribed to all tags, `unsubscribe` reports not
being subscribed to any tags. -/
theorem handlers_empty_offer_behavior (forum_tags : List Tag) (subscribed : List String) :
    ((subscribe_offer forum_tags subscribed = [] ∧
        subscribe forum_tags subscribed =
          Response.message "You are currently subscribed to all tags!") ∨
      (subscribe_offer forum_tags subscribed ≠ [] ∧
        subscribe forum_tags subscribed =
          Response.menu true (subscribe_offer forum_tags subscribed))) ∧
    ((unsubscribe_offer forum_tags subscribed = [] ∧
        unsubscribe forum_tags subscribed =
          Response.message "Not currently subscribed to any tags!") ∨
      (unsubscribe_offer forum_tags subscribed ≠ [] ∧
        unsubscribe forum_tags subscribed =
          Response.menu false (unsubscribe_offer forum_tags subscribed))) := by
  constructor
  · by_cases h : subscribe_offer forum_tags subscribed = []
    · refine Or.inl ⟨h, ?_⟩
      simp only [subscribe_offer] at h
      simp only [subscribe]
      rw [if_pos h]
    · refine Or.inr ⟨h, ?_⟩
      simp only [subscribe_offer] at h
      simp only [subscribe]
      rw [if_neg h]
      rfl
  · by_cases h : unsubscribe_offer forum_tags subscribed = []
    · refine Or.inl ⟨h, ?_⟩
      simp only [unsubscribe_offer] at h
      simp only [unsubscribe]
      rw [if_pos h]
    · refine Or.inr ⟨h, ?_⟩
      simp only [unsubscribe_offer] at h
      simp only [unsubscribe]
      rw [if_neg h]
      rfl

/-- Claim C5: with an empty subscription set, the subscribe offer is the
whole tag sequence and the unsubscribe offer is empty. -/
theorem offers_empty_subscriptions (T : List Tag) :
    subscribe_offer T [] = T ∧ unsubscribe_offer T [] = [] := by
  constructor
  · simp [subscribe_offer]
  · simp [unsubscribe_offer]

/-- Claim C6: when the subscription set is exactly the set of names of the
tag sequence, the subscribe offer is empty and the unsubscribe offer is the
whole sequence. -/
theorem offers_full_subscriptions (T : List Tag) :
    subscribe_offer T (T.map Tag.name) = [] ∧ unsubscribe_offer T (T.map Tag.name) = T := by
  constructor
  · rw [subscribe_offer, List.filter_eq_nil_iff]
    intro t ht
    simp [List.mem_map]
    exact ⟨t, ht, rfl⟩
  · rw [unsubscribe_offer, List.filter_eq_self]
    intro t ht
    simp [List.mem_map]
    exact ⟨t, ht, rfl⟩

/-- Claim C7: the tag-listing formatter returns the tag names joined in
order by the single fixed separator comma-space, with the empty string on
the empty sequence (`joinNamesSpec` is that specification stated by direct
recursion). -/
theorem create_message_string_is_comma_space_join (iter_tags : List Tag) :
    create_message_string iter_tags = joinNamesSpec iter_tags := by
  cases iter_tags with
  | nil => rfl
  | cons t ts =>
    show String.intercalate.go t.name ", " (ts.map Tag.name) = _
    rw [intercalate_go_eq_joinTail, joinNamesSpec_cons]

/-- Claim C8: whenever the directory lookup yields a tag list, the sync
handler performs exactly two external calls, in order: first the bulk
subscription-store sync receiving that tag list unchanged, then the
command-registration refresh. -/
theorem sync_delegates_unchanged (client_guilds : List Guild)
    (guild_name channel_name : String) (forum_tags : List Tag)
    (h : get_forum_tags client_guilds guild_name channel_name = some forum_tags) :
    sync client_guilds guild_name channel_name =
      some [ExternalCall.sync_all_tags forum_tags, ExternalCall.tree_sync] := by
  simp [sync, h]

theorem sync_delegates_unchanged_witness :
    sync [Guild.mk "srv" [GuildChannel.mk "chan" [Tag.mk "alpha"]]] "srv" "chan" =
      some [ExternalCall.sync_all_tags [Tag.mk "alpha"], ExternalCall.tree_sync] :=
  sync_delegates_unchanged _ _ _ [Tag.mk "alpha"] (by decide)

/-- Claim C9: the name `create_mention_string` is not among the module-level
names defined in the program, so the `on_thread_create` handler always
aborts with a name-resolution error and never reaches its message send. -/
theorem on_thread_create_always_name_error :
    moduleGlobalNames.contains "create_mention_string" = false ∧
    ∀ (ctx : ThreadCtx) (channel_name : String),
      on_thread_create ctx channel_name =
        ThreadCreateOutcome.nameError "create_mention_string" := by
  refine ⟨by decide, ?_⟩
  intro ctx channel_name
  rfl

/-- Claim C10: `get_thread_tags` returns the thread's applied tags exactly
when the parent channel name equals the configured channel name, and
returns no value (None, not an empty list) when the names differ. -/
theorem get_thread_tags_cases (ctx : ThreadCtx) (channel_name : String) :
    (ctx.parent.name = channel_name ∧
      get_thread_tags ctx channel_name = some ctx.applied_tags) ∨
    (ctx.parent.name ≠ channel_name ∧
      get_thread_tags ctx channel_name = none) := by
  by_cases h : ctx.parent.name = channel_name
  · exact Or.inl ⟨h, by simp [get_thread_tags, h]⟩
  · exact Or.inr ⟨h, by simp [get_thread_tags, h]⟩

end BobaBot
